import Mathlib

/-!
Shallow embedding of the safina-lite query-orchestration pipeline
(`core/orchestrator.py`, `core/context_manager.py`, `core/llm/manager.py`,
`processors/registry.py`, `processors/general_inquiry/processor.py`,
`processors/digital_lending/processor.py`,
`processors/digital_lending/data_manager.py`, `models/response.py`).

Modelling conventions:
  * Python dicts become association lists; dict `.get` becomes `List.lookup`
    with the same defaults.
  * External collaborators (text-generation providers, the SQLite-backed
    tabular lookup) become records of functions returning `Except Err _`,
    so that any collaborator call may raise; pure code never raises.
  * The wall clock (`datetime.now()`) is threaded in explicitly: the
    ISO timestamp as a `now : String` parameter and the hour-of-day as an
    `hour : Nat` parameter.
  * Python truthiness on optional strings is modelled by comparing the
    `Option.getD ""` image with `""`.
  * Float literals carry no arithmetic in the source (they are stored and
    returned verbatim), so confidences are embedded as rationals.
-/

namespace Safina

/-- An exception raised by an external collaborator (network, parsing, ...). -/
inductive Err where
  | exc (msg : String)
deriving DecidableEq, Repr

/-- The dictionary returned by `BaseLLM.check_connection`:
`available` holds the truthiness of `status.get('available')`,
`latency` the value of `status.get('latency')`. -/
structure CheckStatus where
  available : Bool
  latency : Option String := none
  errmsg : Option String := none
deriving DecidableEq, Repr

/-- One entry of the dictionary built by `LLMManager.get_available_providers`
(`{'available': ..., 'latency': ...}`). -/
structure AvailEntry where
  available : Bool
  latency : Option String
deriving DecidableEq, Repr

/-- One parameter of a tool's `parameters_schema`. -/
structure ParamSpec where
  type : String
  required : Bool
  description : String
deriving DecidableEq, Repr

/-- `processors/base.py` `Tool` (the `processor_class` back-reference is
metadata only and is not part of the embedding). -/
structure Tool where
  name : String
  description : String
  parameters_schema : List (String × ParamSpec)
deriving DecidableEq, Repr

/-- The tool-selection reply consumed by the orchestrator
(`{'tool_name': ..., 'arguments': ...}`).  The provider's reply also carries
a `confidence` entry, but the orchestrator only writes it to the log, so it
is not part of the embedding. -/
structure ToolCall where
  tool_name : String
  arguments : List (String × String)
deriving DecidableEq, Repr

/-- One failed eligibility check
(`DigitalLendingProcessor._analyze_failed_checks` output element). -/
structure FailedCheck where
  check_type : String
  description : String
  explanation : String
  supporting_data : List (String × String)
deriving DecidableEq, Repr

/-- The `data` payload attached to eligibility responses. -/
inductive RespData where
  | eligible (account_number : Option String)
  | ineligible (account_number : String) (customer_name : String)
      (failed_checks : List FailedCheck)
deriving DecidableEq, Repr

/-- `models/response.py` `Response` (the wall-clock `timestamp` and the
never-written `metadata` field are omitted). -/
structure Response where
  message : String
  intent : String
  confidence : ℚ
  status : String := "success"
  data : Option RespData := none
  suggestions : List String := []
deriving DecidableEq, Repr

/-- One interaction stored in a session's history
(`ContextManager.update_context`). -/
structure Interaction where
  timestamp : String
  query : String
  response : String
  intent : String
  account_number : Option String
deriving DecidableEq, Repr

/-- The context dictionary built by `ContextManager.get_context`; the
orchestrator later adds the `original_query` key. -/
structure Context where
  session_id : String
  history_length : Nat
  last_account : Option String
  last_intent : Option String
  history : List Interaction
  original_query : Option String := none
deriving DecidableEq, Repr

/-- The `sessions` dictionary of `ContextManager`. -/
abbrev Sessions := List (String × List Interaction)

/-- Read a session's history, defaulting to the empty history
(`self.sessions.get(session_id, [])`). -/
def Sessions.getHist (s : Sessions) (sid : String) : List Interaction :=
  (s.lookup sid).getD []

/-- Write a session's history back (dict item assignment; a fresh key is
appended, matching `defaultdict` creation on first write). -/
def Sessions.setHist : Sessions → String → List Interaction → Sessions
  | [], sid, h => [(sid, h)]
  | (k, v) :: rest, sid, h =>
      if k = sid then (k, h) :: rest else (k, v) :: Sessions.setHist rest sid h

/-- `core/context_manager.py` `ContextManager`. -/
structure ContextManager where
  max_history : Nat
  sessions : Sessions
deriving DecidableEq, Repr

/-- `ContextManager.get_context`. -/
def ContextManager.get_context (cm : ContextManager) (session_id : String) :
    Context :=
  let history := cm.sessions.getHist session_id
  { session_id := session_id
    history_length := history.length
    last_account :=
      match history.getLast? with
      | some last_interaction => last_interaction.account_number
      | none => none
    last_intent :=
      match history.getLast? with
      | some last_interaction => some last_interaction.intent
      | none => none
    history := history }

/-- The interaction dictionary built at the top of
`ContextManager.update_context` (the orchestrator always passes a
`Response`, so the `response.message` branch of the `hasattr` test is the
one embedded). -/
def mkInteraction (now query : String) (response : Response) (intent : String)
    (account_number : Option String) : Interaction :=
  { timestamp := now
    query := query
    response := response.message
    intent := intent
    account_number := account_number }

/-- `ContextManager.update_context`: append one interaction, then `pop(0)`
once if the history now exceeds `max_history`. -/
def ContextManager.update_context (cm : ContextManager) (now : String)
    (session_id query : String) (response : Response) (intent : String)
    (account_number : Option String) : ContextManager :=
  let h := cm.sessions.getHist session_id ++
    [mkInteraction now query response intent account_number]
  let h := if h.length > cm.max_history then h.drop 1 else h
  { cm with sessions := cm.sessions.setHist session_id h }

/-- An external text-generation backend (`core/llm/base.py` `BaseLLM`).
Each method is a black box that may raise.  Within one pipeline pass
`check_connection` is modelled as a single (re-checked, uncached) report. -/
structure Provider where
  check_connection : Except Err CheckStatus
  generate : String → Nat → ℚ → Except Err String
  generate_with_tools : String → Context → List Tool → Except Err ToolCall

/-- `core/llm/manager.py` `LLMManager` state. -/
structure LLMManager where
  providers : List (String × Provider)
  default_provider_name : Option String := none
  fallback_order : List String := []

/-- `LLMManager.get_default_provider` (`providers.get(default_provider_name)`;
a `None` name finds nothing). -/
def LLMManager.get_default_provider (m : LLMManager) : Option Provider :=
  match m.default_provider_name with
  | some d => m.providers.lookup d
  | none => none

/-- `LLMManager.get_provider`: a truthy (non-empty) name is looked up
directly, otherwise the default provider is returned. -/
def LLMManager.get_provider (m : LLMManager) (name : Option String) :
    Option Provider :=
  if (name.getD "") ≠ "" then m.providers.lookup (name.getD "")
  else m.get_default_provider

/-- `LLMManager.get_fallback_providers`: the fallback order with
unregistered names filtered out. -/
def LLMManager.get_fallback_providers (m : LLMManager) : List Provider :=
  m.fallback_order.filterMap m.providers.lookup

/-- The loop body of `LLMManager.get_available_providers`: one entry per
registered provider, in registration order; a raising `check_connection`
propagates. -/
def availability_entries :
    List (String × Provider) → Except Err (List (String × AvailEntry))
  | [] => .ok []
  | (name, p) :: rest =>
    match p.check_connection with
    | .error e => .error e
    | .ok status =>
      match availability_entries rest with
      | .error e => .error e
      | .ok entries =>
          .ok ((name, { available := status.available,
                        latency := status.latency }) :: entries)

/-- `LLMManager.get_available_providers`. -/
def LLMManager.get_available_providers (m : LLMManager) :
    Except Err (List (String × AvailEntry)) :=
  availability_entries m.providers

/-- A handler (`processors/base.py` `BaseProcessor`): its declared tools and
its `execute` entry point. -/
structure Processor where
  name : String
  tools : List Tool
  execute : String → List (String × String) → Context → Provider →
    Except Err Response

/-- `processors/registry.py` `ProcessorRegistry` state. -/
structure ProcessorRegistry where
  processors : List (String × Processor)
  tools_map : List (String × Processor)

/-- `ProcessorRegistry.get_processor_for_tool` (`tools_map.get(tool_name)`). -/
def ProcessorRegistry.get_processor_for_tool (r : ProcessorRegistry)
    (tool_name : String) : Option Processor :=
  r.tools_map.lookup tool_name

/-- `ProcessorRegistry.get_all_tools`: concatenation of every processor's
tools in registration order. -/
def ProcessorRegistry.get_all_tools (r : ProcessorRegistry) : List Tool :=
  (r.processors.map fun p => p.2.tools).flatten

/-- Python `str.strip()` (leading and trailing whitespace removed). -/
def pyStrip (s : String) : String :=
  String.mk
    (((s.data.dropWhile Char.isWhitespace).reverse.dropWhile
        Char.isWhitespace).reverse)

/-- Python `str.upper()` (ASCII data in this code base). -/
def pyUpper (s : String) : String :=
  String.mk (s.data.map Char.toUpper)

/-- Python `str.lower()` (ASCII data in this code base). -/
def pyLower (s : String) : String :=
  String.mk (s.data.map Char.toLower)

/-- Python `str.split(sep)` for a one-character separator, on char lists. -/
def splitOnChar (sep : Char) : List Char → List (List Char)
  | [] => [[]]
  | c :: cs =>
    match splitOnChar sep cs with
    | [] => if c = sep then [[], []] else [[c]]
    | r :: rs => if c = sep then [] :: r :: rs else (c :: r) :: rs

/-- Python `str.split(sep)` for a one-character separator. -/
def pySplit (s : String) (sep : Char) : List String :=
  (splitOnChar sep s.data).map String.mk

/-- Python single-character `str.replace(old, new)`. -/
def pyReplaceChar (s : String) (old new : Char) : String :=
  String.mk (s.data.map fun c => if c = old then new else c)

/-- `s` starts with `pat` (the `LIKE 'pat%'` account-number match). -/
def strStarts (s pat : String) : Bool :=
  List.isPrefixOf pat.data s.data

/-- Substring containment, Python's `in` operator on strings. -/
def strContains (s pat : String) : Bool :=
  (List.range (s.data.length + 1)).any fun i =>
    List.isPrefixOf pat.data (s.data.drop i)

/-- The greeting keyword list of `GeneralInquiryProcessor._is_greeting`. -/
def general_inquiry_greetings : List String :=
  ["hi", "hello", "hey", "good morning", "good afternoon", "good evening"]

/-- `GeneralInquiryProcessor._is_greeting`. -/
def is_greeting (query : String) : Bool :=
  general_inquiry_greetings.any fun greet => strContains (pyLower query) greet

/-- The time-based greeting of `GeneralInquiryProcessor._handle_greeting`. -/
def time_greeting_excl (hour : Nat) : String :=
  if 5 ≤ hour ∧ hour < 12 then "Good Morning!"
  else if 12 ≤ hour ∧ hour < 17 then "Good Afternoon!"
  else "Good Evening!"

/-- `GeneralInquiryProcessor._handle_greeting`. -/
def handle_greeting (hour : Nat) : Response :=
  { message := time_greeting_excl hour ++
      "\n\nI\x27m Safina, your AI assistant for NCBA Bank\x27s digital lending queries.\n\nI can help you with:\n• Checking customer loan eligibility\n• Explaining ineligibility reasons\n• Answering questions about digital lending policies\n• Providing guidance on loan processes\n\nHow can I assist you today?"
    intent := "greeting"
    confidence := 0.95
    status := "success"
    suggestions :=
      ["Check eligibility for account 503446",
       "What are the eligibility requirements?",
       "How does the digital loan process work?"] }

/-- The prompt built by `GeneralInquiryProcessor._handle_general`. -/
def general_inquiry_prompt (query : String) : String :=
  "You are Safina, a professional banking assistant for NCBA Bank\x27s digital lending team.\n\nA staff member asked: \"" ++
  query ++
  "\"\n\nProvide a helpful, professional response. If it\x27s about loan eligibility:\n- Remind them they need an account number to check specific eligibility\n- Mention general eligibility criteria (individual account, sole signatory, mobile banking, 6+ months history)\n\nIf it\x27s a general question about digital loans, provide accurate information about NCBA\x27s digital lending services.\n\nKeep the response concise, professional, and actionable."

/-- The canned message of `GeneralInquiryProcessor._handle_general`'s
exception branch. -/
def general_inquiry_fallback_message : String :=
  "I\x27m here to help with digital lending queries. Please ask about loan eligibility, requirements, or processes."

/-- The single tool declared by `GeneralInquiryProcessor`. -/
def general_response_tool : Tool :=
  { name := "general_response"
    description := "Handle greetings, general questions, and fallback cases"
    parameters_schema := [] }

/-- `processors/general_inquiry/processor.py` `GeneralInquiryProcessor`:
greeting queries get the canned greeting; otherwise one provider
`generate` call whose failure degrades to a canned message (never raises). -/
def generalInquiryProcessor (hour : Nat) : Processor :=
  { name := "general_inquiry"
    tools := [general_response_tool]
    execute := fun _tool_name _arguments context llm_provider =>
      let query := context.original_query.getD ""
      if is_greeting query then .ok (handle_greeting hour)
      else
        match llm_provider.generate (general_inquiry_prompt query) 300 0.7 with
        | .ok response_text =>
            .ok { message := pyStrip response_text
                  intent := "general_inquiry"
                  confidence := 0.75
                  status := "success" }
        | .error _ =>
            .ok { message := general_inquiry_fallback_message
                  intent := "general_inquiry"
                  confidence := 0.6
                  status := "success" } }

/-- One row of the disqualification ("reasons") table: a flat mapping from
column name to string value (`data_manager.py` rows read through
`sqlite3.Row`). -/
abbrev CustomerRecord := List (String × String)

/-- Python `customer_data.get(col, dflt)` followed by `str(...)` where the
source applies it (all values are strings in the embedding). -/
def CustomerRecord.get (r : CustomerRecord) (col dflt : String) : String :=
  (r.lookup col).getD dflt

/-- Python `str` applied to an optional value (`None` prints as `"None"`). -/
def pyStr : Option String → String
  | some s => s
  | none => "None"

/-- `processors/digital_lending/data_manager.py` `DataManager` cache
content: the warehouse `ACCOUNT_NUMBER` column (stripped at load) and the
disqualification table rows, both in file order. -/
structure DataManager where
  warehouse : List String
  reasons : List CustomerRecord
deriving DecidableEq, Repr

/-- `DataManager.is_in_warehouse`: identifiers shorter than 10 characters
(after stripping) are customer numbers matched by prefix
(`ACCOUNT_NUMBER LIKE 'id%'`), longer ones are matched exactly; the first
matching row is returned. -/
def DataManager.is_in_warehouse (dm : DataManager) (identifier : String) :
    Bool × Option String :=
  let normalized_id := pyStrip identifier
  let is_customer_number := normalized_id.data.length < 10
  let result :=
    if is_customer_number then
      dm.warehouse.find? fun acc => strStarts acc normalized_id
    else
      dm.warehouse.find? fun acc => acc = normalized_id
  match result with
  | some acc => (true, some acc)
  | none => (false, none)

/-- `DataManager.get_customer_data`: same length-10 rule; a customer number
matches `CUSTOMERNO` exactly or `ACCOUNT_NUMBER` by prefix, a long
identifier matches `ACCOUNT_NUMBER` exactly; first matching row wins. -/
def DataManager.get_customer_data (dm : DataManager) (identifier : String) :
    Option CustomerRecord :=
  let normalized_id := pyStrip identifier
  let is_customer_number := normalized_id.data.length < 10
  if is_customer_number then
    dm.reasons.find? fun row =>
      row.lookup "CUSTOMERNO" = some normalized_id ||
        (match row.lookup "ACCOUNT_NUMBER" with
         | some acc => strStarts acc normalized_id
         | none => false)
  else
    dm.reasons.find? fun row => row.lookup "ACCOUNT_NUMBER" = some normalized_id

/-- The fixed ordered check-column catalog of
`DigitalLendingProcessor._analyze_failed_checks` (`CHECK_COLUMNS`). -/
def CHECK_COLUMNS : List (String × String) :=
  [("Joint_Check", "Joint Account Check"),
   ("DPD_Arrears_Check_DS", "DPD Arrears Check"),
   ("Elma_check", "Mobile Banking Setup"),
   ("KRAPIN_Check", "KRA PIN Check"),
   ("Classification_Check", "Risk Classification"),
   ("Mandates_Check", "Account Mandates"),
   ("Linked_Base_Check", "Linked Base Account"),
   ("customer_vintage_Check", "Banking Vintage"),
   ("Active_Inactive_Check", "Account Activity"),
   ("Scheme_Check_DS", "Scheme Check"),
   ("Staff_Check_DS", "Staff Account Check"),
   ("Risk_Class_Check_DS", "Risk Class Check"),
   ("Average_Bal_check", "Average Balance Check")]

/-- `DigitalLendingProcessor._get_check_explanation`. -/
def get_check_explanation (check_type : String)
    (customer_data : CustomerRecord) : String :=
  if check_type = "DPD_Arrears_Check_DS" then
    "Customer has DPD arrears. Clear all outstanding arrears and wait 60-day cooling period."
  else if check_type = "Classification_Check" then
    "Customer classification is " ++ customer_data.get "RISK_CLASS" "Unknown" ++
      ", below minimum threshold (A5 for digital, A7 for mobile). Liaise with RM to upgrade."
  else if check_type = "Joint_Check" then
    "This is a joint account. Only individual accounts with sole signatories qualify."
  else if check_type = "Mandates_Check" then
    "Account mandates must be SOLE SIGNATORY. Remove additional signatories."
  else if check_type = "customer_vintage_Check" then
    "Customer has banked less than 6 months. Minimum 6 months required."
  else if check_type = "Elma_check" then
    "Customer not enrolled in mobile banking. Register for NCBA SASA mobile banking."
  else if check_type = "Active_Inactive_Check" then
    "Account classified as inactive. Reactivate through regular transactions for 30+ days."
  else if check_type = "Risk_Class_Check_DS" then
    "Customer classified as high risk after assessment. Improve credit history."
  else "Failed " ++ pyReplaceChar check_type '_' ' '

/-- `DigitalLendingProcessor._get_supporting_data`. -/
def get_supporting_data (check_type : String)
    (customer_data : CustomerRecord) : List (String × String) :=
  if check_type = "DPD_Arrears_Check_DS" then
    [("Arrears_Days", customer_data.get "Arrears_Days" "N/A"),
     ("Loan_Account", customer_data.get "Loan_Account" "N/A")]
  else if check_type = "Classification_Check" then
    [("Current_Classification", customer_data.get "RISK_CLASS" "Unknown")]
  else []

/-- Helper for Python `str.title()`: a cased character is uppercased after a
non-cased character and lowercased otherwise. -/
def pyTitleGo : Bool → List Char → List Char
  | _, [] => []
  | prevCased, c :: cs =>
    (if c.isAlpha then (if prevCased then c.toLower else c.toUpper) else c) ::
      pyTitleGo c.isAlpha cs

/-- Python `str.title()` (ASCII data in this code base). -/
def pyTitle (s : String) : String :=
  String.mk (pyTitleGo false s.data)

/-- The `for idx, reason in enumerate(reason_list)` loop of
`_analyze_failed_checks`: a stripped token is appended unless it is empty
or its identifier is already present among the failed checks collected so
far; the paired explanation is the token's positional counterpart in the
explanation list, or the raw token when that position is absent. -/
def append_reason_checks (explanation_list : List String) :
    Nat → List String → List FailedCheck → List FailedCheck
  | _, [], failed_checks => failed_checks
  | idx, reason :: rest, failed_checks =>
    if reason ≠ "" ∧ reason ∉ failed_checks.map FailedCheck.check_type then
      append_reason_checks explanation_list (idx + 1) rest
        (failed_checks ++
          [{ check_type := reason
             description := pyTitle (pyReplaceChar reason '_' ' ')
             explanation := explanation_list.getD idx reason
             supporting_data := [] }])
    else
      append_reason_checks explanation_list (idx + 1) rest failed_checks

/-- The recency check at the top of
`DigitalLendingProcessor._analyze_failed_checks`. -/
def recency_checks (customer_data : CustomerRecord) : List FailedCheck :=
  if pyUpper (pyStrip (customer_data.get "recency_check" "")) = "N" then
    [{ check_type := "recency_check"
       description := "Inconsistent Credit Turnovers"
       explanation := "Customer has inconsistent credit turnovers with irregular transaction patterns"
       supporting_data := [] }]
  else []

/-- One iteration of the `for col, description in CHECK_COLUMNS.items()`
loop of `_analyze_failed_checks`. -/
def catalog_step (customer_data : CustomerRecord) (acc : List FailedCheck)
    (cd : String × String) : List FailedCheck :=
  if pyUpper (pyStrip (customer_data.get cd.1 "")) = "EXCLUDE" then
    acc ++
      [{ check_type := cd.1
         description := cd.2
         explanation := get_check_explanation cd.1 customer_data
         supporting_data := get_supporting_data cd.1 customer_data }]
  else acc

/-- The whole catalog loop of `_analyze_failed_checks`. -/
def catalog_checks (customer_data : CustomerRecord)
    (failed_checks : List FailedCheck) : List FailedCheck :=
  CHECK_COLUMNS.foldl (catalog_step customer_data) failed_checks

/-- The free-text reasons section of `_analyze_failed_checks`. -/
def reasons_checks (customer_data : CustomerRecord)
    (failed_checks : List FailedCheck) : List FailedCheck :=
  let reasons := pyStrip (customer_data.get "reasons" "")
  if reasons ≠ "" ∧ reasons ≠ "nan" then
    let reason_list := (pySplit reasons ',').map pyStrip
    let reasons_explanation :=
      pyStrip (customer_data.get "reasons_explanation" "")
    let explanation_list :=
      if reasons_explanation ≠ "" ∧ reasons_explanation ≠ "nan" then
        (pySplit reasons_explanation ',').map pyStrip
      else reason_list
    append_reason_checks explanation_list 0 reason_list failed_checks
  else failed_checks

/-- `DigitalLendingProcessor._analyze_failed_checks`: the recency flag,
then the fixed catalog in order (a column failing iff its stripped
uppercased value equals `"EXCLUDE"`), then the comma-split free-text
reasons. -/
def analyze_failed_checks (customer_data : CustomerRecord) :
    List FailedCheck :=
  reasons_checks customer_data
    (catalog_checks customer_data (recency_checks customer_data))

/-- One step of the `_generate_action_items` loop: the pair carries the
`actions` list and the keys of the `action_map` dedup dictionary. -/
def action_items_step (acc : List String × List String) (check : FailedCheck) :
    List String × List String :=
  let check_type := pyLower check.check_type
  let (actions, action_map) := acc
  if strContains check_type "dpd" || strContains check_type "arrears" then
    if "arrears" ∉ action_map then
      (actions ++ ["• **Clear all arrears** and wait 60-day cooling period"],
       action_map ++ ["arrears"])
    else (actions, action_map)
  else if strContains check_type "classification" then
    if "classification" ∉ action_map then
      (actions ++
        ["• **Upgrade customer classification** - Contact RM/Portfolio team"],
       action_map ++ ["classification"])
    else (actions, action_map)
  else if strContains check_type "joint" then
    if "joint" ∉ action_map then
      (actions ++
        ["• **Convert to individual account** - Joint accounts ineligible"],
       action_map ++ ["joint"])
    else (actions, action_map)
  else if strContains check_type "mandates" then
    if "mandates" ∉ action_map then
      (actions ++
        ["• **Update to SOLE SIGNATORY** - Remove additional signatories"],
       action_map ++ ["mandates"])
    else (actions, action_map)
  else if strContains check_type "vintage" then
    if "vintage" ∉ action_map then
      (actions ++ ["• **Wait minimum 6 months** banking relationship"],
       action_map ++ ["vintage"])
    else (actions, action_map)
  else if strContains check_type "elma" then
    if "elma" ∉ action_map then
      (actions ++ ["• **Register for mobile banking** - Setup NCBA SASA"],
       action_map ++ ["elma"])
    else (actions, action_map)
  else if strContains check_type "active" || strContains check_type "inactive" then
    if "active" ∉ action_map then
      (actions ++ ["• **Reactivate account** - Regular transactions for 30+ days"],
       action_map ++ ["active"])
    else (actions, action_map)
  else (actions, action_map)

/-- `DigitalLendingProcessor._generate_action_items`. -/
def generate_action_items (failed_checks : List FailedCheck) : List String :=
  let (actions, _) := failed_checks.foldl action_items_step ([], [])
  if actions.isEmpty then
    ["• Contact Portfolio Management for detailed review"]
  else actions

/-- The time-based greeting of the two eligibility response builders. -/
def time_greeting_comma (hour : Nat) : String :=
  if 5 ≤ hour ∧ hour < 12 then "Good Morning,"
  else if 12 ≤ hour ∧ hour < 17 then "Good Afternoon,"
  else "Good Evening,"

/-- `DigitalLendingProcessor._generate_eligible_response`. -/
def generate_eligible_response (account_number : Option String) (hour : Nat) :
    Response :=
  { message := time_greeting_comma hour ++
      "\n\n**Digital Loan Status: ELIGIBLE**\n\nCustomer with account " ++
      pyStr account_number ++
      " is eligible for a digital loan.\n\n**Next Steps:**\n• Inform customer they qualify for a loan\n• Guide them through the loan application process\n• Ensure they understand the terms and conditions\n• Process loan request through standard channels\n\nFor specific loan limits, please check the warehouse system or contact Portfolio Management."
    intent := "eligibility_check"
    confidence := 0.95
    status := "success"
    data := some (.eligible account_number) }

/-- The rendering of one failed check inside
`_generate_ineligible_response` (1-based index). -/
def render_failed_check (idx : Nat) (check : FailedCheck) : String :=
  "\n" ++ toString idx ++ ". **" ++ check.description ++ "**" ++
    "\n   " ++ check.explanation ++
    String.join (check.supporting_data.map fun kv =>
      "\n   • " ++ kv.1 ++ ": " ++ kv.2)

/-- `DigitalLendingProcessor._generate_ineligible_response`. -/
def generate_ineligible_response (customer_data : CustomerRecord)
    (hour : Nat) : Response :=
  let customer_name := customer_data.get "CUS_NAME_1" "Customer"
  let account_number := customer_data.get "ACCOUNT_NUMBER" "Unknown"
  let failed_checks := analyze_failed_checks customer_data
  let message := time_greeting_comma hour ++
    "\n\n**Digital Loan Status: NOT ELIGIBLE**\n\n" ++ customer_name ++
    " (Account: " ++ account_number ++
    ") is currently not eligible for a digital loan.\n\n**Issues Identified:**\n" ++
    String.join (failed_checks.enum.map fun ic =>
      render_failed_check (ic.1 + 1) ic.2) ++
    "\n\n**Resolution Required:**" ++
    String.join ((generate_action_items failed_checks).map fun a => "\n" ++ a)
  { message := message
    intent := "eligibility_check"
    confidence := 0.95
    status := "success"
    data := some (.ineligible account_number customer_name failed_checks) }

/-- The canned `missing_data` response of
`DigitalLendingProcessor._check_eligibility`. -/
def missing_account_response : Response :=
  { message := "I need an account number to check eligibility. Please provide it."
    intent := "eligibility_check"
    confidence := 0.8
    status := "missing_data"
    suggestions := ["Check eligibility for account 503446"] }

/-- `DigitalLendingProcessor._check_eligibility`: a missing or falsy
account number short-circuits to `missing_data`; otherwise warehouse
lookup (eligible), then disqualification lookup (ineligible), then
`not_found`. -/
def check_eligibility (dm : DataManager) (hour : Nat)
    (arguments : List (String × String)) (_context : Context) : Response :=
  if (arguments.lookup "account_number").getD "" = "" then
    missing_account_response
  else
    let account_number := pyStrip ((arguments.lookup "account_number").getD "")
    match dm.is_in_warehouse account_number with
    | (true, actual_account) => generate_eligible_response actual_account hour
    | (false, _) =>
      match dm.get_customer_data account_number with
      | none =>
        { message := "Account " ++ account_number ++
            " not found in records. Please verify the account number."
          intent := "eligibility_check"
          confidence := 0.9
          status := "not_found" }
      | some customer_data => generate_ineligible_response customer_data hour

/-- The single tool declared by `DigitalLendingProcessor`. -/
def check_eligibility_tool : Tool :=
  { name := "check_eligibility"
    description := "Check if customer qualifies for digital loan. Requires account/customer number."
    parameters_schema :=
      [("account_number",
        { type := "string"
          required := true
          description := "Customer account or customer number" })] }

/-- `processors/digital_lending/processor.py` `DigitalLendingProcessor`. -/
def digitalLendingProcessor (dm : DataManager) (hour : Nat) : Processor :=
  { name := "digital_lending"
    tools := [check_eligibility_tool]
    execute := fun tool_name arguments context _llm_provider =>
      if tool_name = "check_eligibility" then
        .ok (check_eligibility dm hour arguments context)
      else
        .ok { message := "Unknown tool requested"
              intent := "error"
              confidence := 0
              status := "error" } }

/-- `core/orchestrator.py` `QueryOrchestrator` state. -/
structure Orchestrator where
  llm_manager : LLMManager
  processor_registry : ProcessorRegistry
  context_manager : ContextManager

/-- The degraded response returned when no provider is available
(orchestrator step 1 short circuit). -/
def no_provider_response : Response :=
  { message := "AI service is temporarily unavailable. Please try again."
    intent := "error"
    confidence := 0
    status := "error" }

/-- The degraded response of `process_query`'s catch-all `except` branch. -/
def generic_error_response : Response :=
  { message := "I encountered an error processing your request. Please try again."
    intent := "error"
    confidence := 0
    status := "error" }

/-- The `for provider in get_fallback_providers()` loop of
`_select_llm_provider`: first provider whose (possibly raising)
availability check reports available. -/
def check_fallbacks : List Provider → Except Err (Option Provider)
  | [] => .ok none
  | provider :: rest =>
    match provider.check_connection with
    | .error e => .error e
    | .ok status =>
      if status.available then .ok (some provider) else check_fallbacks rest

/-- Lines 99-113 of `_select_llm_provider` (default provider, then
fallback order), reached whenever the preference did not select. -/
def Orchestrator.select_default_or_fallback (o : Orchestrator) :
    Except Err (Option Provider) :=
  match o.llm_manager.get_default_provider with
  | some default_provider =>
    match default_provider.check_connection with
    | .error e => .error e
    | .ok status =>
      if status.available then .ok (some default_provider)
      else check_fallbacks o.llm_manager.get_fallback_providers
  | none => check_fallbacks o.llm_manager.get_fallback_providers

/-- `QueryOrchestrator._select_llm_provider`: preference (when truthy and
registered), then the default provider, then the fallback order; the
Python early returns become nested fall-throughs. -/
def Orchestrator.select_llm_provider (o : Orchestrator)
    (preference : Option String) : Except Err (Option Provider) :=
  if (preference.getD "") ≠ "" then
    match o.llm_manager.get_provider preference with
    | some provider =>
      match provider.check_connection with
      | .error e => .error e
      | .ok status =>
        if status.available then .ok (some provider)
        else o.select_default_or_fallback
    | none => o.select_default_or_fallback
  else o.select_default_or_fallback

/-- Orchestrator step 5: resolve the selected tool's processor, or
substitute a freshly constructed general-inquiry processor with the fixed
`general_response`/empty-arguments pair. -/
def Orchestrator.resolve_processor (o : Orchestrator) (hour : Nat)
    (tool_call : ToolCall) : Processor × ToolCall :=
  match o.processor_registry.get_processor_for_tool tool_call.tool_name with
  | some processor => (processor, tool_call)
  | none =>
    (generalInquiryProcessor hour,
     { tool_name := "general_response", arguments := [] })

/-- The body of the `try` block of `QueryOrchestrator.process_query`:
steps 1-7, with every collaborator fault propagated as `.error` and the
context-store state threaded explicitly (it is only written in step 7). -/
def Orchestrator.process_query_inner (o : Orchestrator) (now : String)
    (hour : Nat) (query session_id : String)
    (model_preference : Option String) :
    Except Err Response × ContextManager :=
  match o.select_llm_provider model_preference with
  | .error e => (.error e, o.context_manager)
  | .ok none => (.ok no_provider_response, o.context_manager)
  | .ok (some llm_provider) =>
    let context :=
      { o.context_manager.get_context session_id with
          original_query := some query }
    let available_tools := o.processor_registry.get_all_tools
    match llm_provider.generate_with_tools query context available_tools with
    | .error e => (.error e, o.context_manager)
    | .ok tool_call =>
      let pc := o.resolve_processor hour tool_call
      match pc.1.execute pc.2.tool_name pc.2.arguments context llm_provider with
      | .error e => (.error e, o.context_manager)
      | .ok response =>
        let account_number := pc.2.arguments.lookup "account_number"
        (.ok response,
         o.context_manager.update_context now session_id query response
           response.intent account_number)

/-- `QueryOrchestrator.process_query`: the pipeline body wrapped in the
catch-all `except` that degrades any fault to `generic_error_response`. -/
def Orchestrator.process_query (o : Orchestrator) (now : String) (hour : Nat)
    (query session_id : String) (model_preference : Option String) :
    Response × ContextManager :=
  match o.process_query_inner now hour query session_id model_preference with
  | (.ok response, cm) => (response, cm)
  | (.error _, cm) => (generic_error_response, cm)

/-- The availability verdict of a provider's (non-raising) health check;
used to state the specification-side selection algorithm. -/
def reportsAvailable (p : Provider) : Bool :=
  match p.check_connection with
  | .ok status => status.available
  | .error _ => false

/-- Restatement, in the specification's words, of step 3 of the
`selectActive` algorithm (claim C2): "iterate fallback order in sequence;
return first registered provider reporting available". -/
def fallbackScanSpec (m : LLMManager) : List String → Option Provider
  | [] => none
  | n :: ns =>
    match m.providers.lookup n with
    | some p => if reportsAvailable p then some p else fallbackScanSpec m ns
    | none => fallbackScanSpec m ns

/-- Restatement, in the specification's words, of steps 2-4 of the
`selectActive` algorithm (claim C2). -/
def defaultOrFallbackSpec (m : LLMManager) : Option Provider :=
  match m.default_provider_name with
  | some d =>
    match m.providers.lookup d with
    | some p =>
      if reportsAvailable p then some p
      else fallbackScanSpec m m.fallback_order
    | none => fallbackScanSpec m m.fallback_order
  | none => fallbackScanSpec m m.fallback_order

/-- Restatement, in the specification's words, of the full `selectActive`
algorithm (claim C2): preferred name when given, registered and available;
else default; else fallback scan; else empty. -/
def selectActiveSpec (m : LLMManager) (preferredName : Option String) :
    Option Provider :=
  match preferredName with
  | some nm =>
    match m.providers.lookup nm with
    | some p =>
      if reportsAvailable p then some p else defaultOrFallbackSpec m
    | none => defaultOrFallbackSpec m
  | none => defaultOrFallbackSpec m

/-- A successful lookup finds a pair of the association list. -/
theorem lookup_some_mem {α β : Type} [BEq α] [LawfulBEq α] {l : List (α × β)}
    {a : α} {b : β} (h : l.lookup a = some b) : (a, b) ∈ l := by
  induction l with
  | nil => simp [List.lookup] at h
  | cons hd tl ih =>
    rcases hd with ⟨k, v⟩
    by_cases hk : a = k
    · subst hk
      simp only [List.lookup, beq_self_eq_true] at h
      cases h
      exact List.mem_cons_self _ _
    · have hk' : (a == k) = false := beq_eq_false_iff_ne.mpr hk
      simp only [List.lookup, hk'] at h
      exact List.mem_cons_of_mem _ (ih h)

/-- Reading back a session history just written. -/
theorem getHist_setHist (s : Sessions) (sid : String) (h : List Interaction) :
    (Sessions.setHist s sid h).getHist sid = h := by
  induction s with
  | nil => simp [Sessions.setHist, Sessions.getHist, List.lookup]
  | cons hd tl ih =>
    rcases hd with ⟨k, v⟩
    by_cases hk : k = sid
    · subst hk
      simp [Sessions.setHist, Sessions.getHist, List.lookup]
    · have hk' : (sid == k) = false := beq_eq_false_iff_ne.mpr (Ne.symm hk)
      simp only [Sessions.setHist, if_neg hk, Sessions.getHist, List.lookup,
        hk']
      exact ih

/-- The embedded general-inquiry handler never raises: every branch,
including a failing provider `generate` call, produces a `Response`. -/
theorem generalInquiry_execute_ok (hour : Nat) (tool_name : String)
    (arguments : List (String × String)) (context : Context)
    (llm : Provider) :
    ∃ r, (generalInquiryProcessor hour).execute tool_name arguments context
      llm = .ok r := by
  unfold generalInquiryProcessor
  simp only
  by_cases hg : is_greeting (context.original_query.getD "")
  · exact ⟨handle_greeting hour, by simp [hg]⟩
  · rcases hgen : llm.generate (general_inquiry_prompt
      (context.original_query.getD "")) 300 0.7 with e | t
    · exact ⟨{ message := general_inquiry_fallback_message,
               intent := "general_inquiry", confidence := 0.6,
               status := "success" }, by simp [hg, hgen]⟩
    · exact ⟨{ message := pyStrip t, intent := "general_inquiry",
               confidence := 0.75, status := "success" },
             by simp [hg, hgen]⟩

/-- Test fixture: a registered provider whose health check reports
unavailable. -/
def providerUnavailable : Provider :=
  { check_connection := .ok { available := false, errmsg := some "down" }
    generate := fun _ _ _ => .error (.exc "down")
    generate_with_tools := fun _ _ _ => .error (.exc "down") }

/-- Test fixture: a registered provider whose health check reports
available, whose tool selection names an unregistered tool, and whose
free-form generation fails. -/
def providerAvailable : Provider :=
  { check_connection := .ok { available := true }
    generate := fun _ _ _ => .error (.exc "generation failed")
    generate_with_tools := fun _ _ _ =>
      .ok { tool_name := "nonexistent_tool", arguments := [] } }

/-- Test fixture: an empty capability registry. -/
def emptyRegistry : ProcessorRegistry := ⟨[], []⟩

/-- Test fixture: a fresh context store with the default window of 10. -/
def emptyContext : ContextManager := ⟨10, []⟩

/-- Test fixture: an orchestrator with no registered providers. -/
def orchestratorNoProviders : Orchestrator :=
  ⟨⟨[], none, []⟩, emptyRegistry, emptyContext⟩

/-- Test fixture: providers {A: unavailable, B: available}, default A,
fallback order [B] (the scenario of claim C2). -/
def managerAB : LLMManager :=
  ⟨[("A", providerUnavailable), ("B", providerAvailable)], some "A", ["B"]⟩

/-- Test fixture: an orchestrator over `managerAB` with an empty registry. -/
def orchestratorAB : Orchestrator := ⟨managerAB, emptyRegistry, emptyContext⟩

/-- C1: `process_query` is total for every query string, session id and
optional provider preference: it returns the inner pipeline's well-formed
`Response` when no step raises, and otherwise converts the raised fault
into the single generic degraded response with status `error`, intent
`error` and confidence 0; no fault propagates past the boundary. -/
theorem process_query_absorbs_all_faults (o : Orchestrator) (now : String)
    (hour : Nat) (query session_id : String) (pref : Option String) :
    (generic_error_response.status = "error" ∧
     generic_error_response.intent = "error" ∧
     generic_error_response.confidence = 0) ∧
    ((∃ e, (o.process_query_inner now hour query session_id pref).1 =
        Except.error e ∧
        (o.process_query now hour query session_id pref).1 =
          generic_error_response) ∨
      (o.process_query_inner now hour query session_id pref).1 =
        Except.ok (o.process_query now hour query session_id pref).1) := by
  refine ⟨⟨rfl, rfl, rfl⟩, ?_⟩
  unfold Orchestrator.process_query
  rcases hinner : o.process_query_inner now hour query session_id pref with
    ⟨r, cm⟩
  cases r with
  | error e => exact Or.inl ⟨e, rfl, rfl⟩
  | ok resp => exact Or.inr rfl

/-- C3: when provider selection returns the empty result, `process_query`
short-circuits to the fixed degraded response (status `error`, intent
`error`, confidence 0, fixed message) and the session store is left
unchanged, so nothing is appended to the session's history. -/
theorem process_query_no_provider_short_circuit (o : Orchestrator)
    (now : String) (hour : Nat) (query session_id : String)
    (pref : Option String)
    (hsel : o.select_llm_provider pref = Except.ok none) :
    o.process_query now hour query session_id pref =
      (no_provider_response, o.context_manager) ∧
    no_provider_response.status = "error" ∧
    no_provider_response.intent = "error" ∧
    no_provider_response.confidence = 0 ∧
    no_provider_response.message =
      "AI service is temporarily unavailable. Please try again." ∧
    ((o.process_query now hour query session_id pref).2).sessions.getHist
        session_id = o.context_manager.sessions.getHist session_id := by
  have hinner : o.process_query_inner now hour query session_id pref =
      (Except.ok no_provider_response, o.context_manager) := by
    unfold Orchestrator.process_query_inner
    rw [hsel]
  have hmain : o.process_query now hour query session_id pref =
      (no_provider_response, o.context_manager) := by
    unfold Orchestrator.process_query
    rw [hinner]
  exact ⟨hmain, rfl, rfl, rfl, rfl, by rw [hmain]⟩

/-- Witness for C3: the no-provider orchestrator selects nothing and
short-circuits. -/
theorem process_query_no_provider_short_circuit_witness :
    orchestratorNoProviders.select_llm_provider none = Except.ok none ∧
    orchestratorNoProviders.process_query "t0" 9 "hello" "s1" none =
      (no_provider_response, emptyContext) :=
  ⟨rfl, (process_query_no_provider_short_circuit orchestratorNoProviders
      "t0" 9 "hello" "s1" none rfl).1⟩

/-- C10: executing `check_eligibility` with a missing or falsy
`account_number` argument yields the fixed `missing_data` response with
intent `eligibility_check` and a non-empty message, and the result does
not depend on the warehouse or disqualification data at all (the lookups
are not consulted); the embedded handler is pure, so no state changes. -/
theorem check_eligibility_missing_account (dm dm2 : DataManager)
    (hour : Nat) (arguments : List (String × String)) (context : Context)
    (h : (arguments.lookup "account_number").getD "" = "") :
    check_eligibility dm hour arguments context = missing_account_response ∧
    check_eligibility dm hour arguments context =
      check_eligibility dm2 hour arguments context ∧
    missing_account_response.status = "missing_data" ∧
    missing_account_response.intent = "eligibility_check" ∧
    missing_account_response.message ≠ "" := by
  have h1 : ∀ dm' : DataManager,
      check_eligibility dm' hour arguments context =
        missing_account_response := by
    intro dm'
    unfold check_eligibility
    rw [if_pos h]
  refine ⟨h1 dm, (h1 dm).trans (h1 dm2).symm, rfl, rfl, ?_⟩
  decide

/-- Witness for C10: no `account_number` key at all, two different data
managers. -/
theorem check_eligibility_missing_account_witness :
    (([("query", "check")] : List (String × String)).lookup
        "account_number").getD "" = "" ∧
    check_eligibility ⟨["503446001"], []⟩ 9 [("query", "check")]
        (ContextManager.get_context emptyContext "s1") =
      missing_account_response :=
  ⟨rfl, (check_eligibility_missing_account ⟨["503446001"], []⟩ ⟨[], []⟩ 9
      [("query", "check")] (ContextManager.get_context emptyContext "s1")
      rfl).1⟩

/-- C4: the session history is a strict FIFO sliding window.
`update_context` appends exactly one interaction and, when the history
then exceeds the configured maximum, evicts exactly one item from the
front; hence the length stays at most `max_history` whenever it was
before, and with max history 2 three sequential updates keep exactly the
2nd and 3rd interactions in order. -/
theorem update_context_sliding_window :
    (∀ (cm : ContextManager) (now session_id query : String)
        (response : Response) (intent : String)
        (account_number : Option String),
      (cm.update_context now session_id query response intent
          account_number).sessions.getHist session_id =
        (if (cm.sessions.getHist session_id).length + 1 > cm.max_history
         then (cm.sessions.getHist session_id ++
            [mkInteraction now query response intent account_number]).drop 1
         else cm.sessions.getHist session_id ++
            [mkInteraction now query response intent account_number])) ∧
    (∀ (cm : ContextManager) (now session_id query : String)
        (response : Response) (intent : String)
        (account_number : Option String),
      (cm.sessions.getHist session_id).length ≤ cm.max_history →
      ((cm.update_context now session_id query response intent
          account_number).sessions.getHist session_id).length ≤
        cm.max_history) ∧
    ((ContextManager.update_context
        (ContextManager.update_context
          (ContextManager.update_context ⟨2, []⟩ "t1" "s" "q1"
            { message := "m1", intent := "i1", confidence := 1 } "i1" none)
          "t2" "s" "q2"
          { message := "m2", intent := "i2", confidence := 1 } "i2" none)
        "t3" "s" "q3"
        { message := "m3", intent := "i3", confidence := 1 } "i3"
        none).sessions.getHist "s" =
      [mkInteraction "t2" "q2"
        { message := "m2", intent := "i2", confidence := 1 } "i2" none,
       mkInteraction "t3" "q3"
        { message := "m3", intent := "i3", confidence := 1 } "i3" none]) := by
  have hwin : ∀ (cm : ContextManager) (now session_id query : String)
      (response : Response) (intent : String)
      (account_number : Option String),
      (cm.update_context now session_id query response intent
          account_number).sessions.getHist session_id =
        (if (cm.sessions.getHist session_id).length + 1 > cm.max_history
         then (cm.sessions.getHist session_id ++
            [mkInteraction now query response intent account_number]).drop 1
         else cm.sessions.getHist session_id ++
            [mkInteraction now query response intent account_number]) := by
    intro cm now session_id query response intent account_number
    simp only [ContextManager.update_context, getHist_setHist,
      List.length_append, List.length_cons, List.length_nil]
  refine ⟨hwin, ?_, rfl⟩
  intro cm now session_id query response intent account_number hlen
  rw [hwin]
  split_ifs with hc
  · simp only [List.length_drop, List.length_append, List.length_cons,
      List.length_nil]
    omega
  · simp only [List.length_append, List.length_cons, List.length_nil]
    omega

/-- Witness for C4's bounded-length clause at a concrete two-interaction
history with max history 2. -/
theorem update_context_sliding_window_witness :
    ((⟨2, [("s", [⟨"t1", "q1", "m1", "i1", none⟩,
        ⟨"t2", "q2", "m2", "i2", none⟩])]⟩ :
          ContextManager).sessions.getHist "s").length ≤ 2 ∧
    (((⟨2, [("s", [⟨"t1", "q1", "m1", "i1", none⟩,
        ⟨"t2", "q2", "m2", "i2", none⟩])]⟩ :
          ContextManager).update_context "t3" "s" "q3"
        { message := "m3", intent := "i3", confidence := 1 } "i3"
        none).sessions.getHist "s").length ≤ 2 :=
  ⟨by decide,
   update_context_sliding_window.2.1
     ⟨2, [("s", [⟨"t1", "q1", "m1", "i1", none⟩,
        ⟨"t2", "q2", "m2", "i2", none⟩])]⟩ "t3" "s" "q3"
     { message := "m3", intent := "i3", confidence := 1 } "i3" none
     (by decide)⟩

/-- C5: a tool name absent from the registry resolves to `none` (no
exception), and the orchestrator then substitutes the fixed fallback
pair — a fresh general-inquiry processor with tool `general_response` and
empty arguments — and finishes the pipeline with that handler's response
and the corresponding context update, instead of failing. -/
theorem unresolved_tool_general_inquiry_fallback (o : Orchestrator)
    (now : String) (hour : Nat) (query session_id : String)
    (pref : Option String) (llm : Provider) (tool_call : ToolCall)
    (hsel : o.select_llm_provider pref = Except.ok (some llm))
    (htc : llm.generate_with_tools query
        { o.context_manager.get_context session_id with
            original_query := some query }
        o.processor_registry.get_all_tools = Except.ok tool_call)
    (hmiss : o.processor_registry.tools_map.lookup tool_call.tool_name =
      none) :
    o.processor_registry.get_processor_for_tool tool_call.tool_name =
      none ∧
    o.resolve_processor hour tool_call =
      (generalInquiryProcessor hour,
       { tool_name := "general_response", arguments := [] }) ∧
    ∃ response,
      (generalInquiryProcessor hour).execute "general_response" []
          { o.context_manager.get_context session_id with
              original_query := some query } llm = Except.ok response ∧
      o.process_query now hour query session_id pref =
        (response,
         o.context_manager.update_context now session_id query response
           response.intent none) := by
  have hres : o.resolve_processor hour tool_call =
      (generalInquiryProcessor hour,
       { tool_name := "general_response", arguments := [] }) := by
    unfold Orchestrator.resolve_processor
      ProcessorRegistry.get_processor_for_tool
    rw [hmiss]
  obtain ⟨response, hexec⟩ := generalInquiry_execute_ok hour
    "general_response" []
    { o.context_manager.get_context session_id with
        original_query := some query } llm
  refine ⟨hmiss, hres, response, hexec, ?_⟩
  have hinner : o.process_query_inner now hour query session_id pref =
      (Except.ok response,
       o.context_manager.update_context now session_id query response
         response.intent none) := by
    simp only [Orchestrator.process_query_inner, hsel, htc, hres, hexec,
      List.lookup]
  unfold Orchestrator.process_query
  rw [hinner]

/-- Test fixture: one available provider that selects an unregistered
tool, over an empty registry. -/
def orchestratorFallbackDemo : Orchestrator :=
  ⟨⟨[("gemini", providerAvailable)], some "gemini", []⟩, emptyRegistry,
   emptyContext⟩

/-- Witness for C5: the provider picks `nonexistent_tool`, the registry is
empty, and the pipeline still completes through the general-inquiry
fallback. -/
theorem unresolved_tool_general_inquiry_fallback_witness :
    emptyRegistry.tools_map.lookup "nonexistent_tool" = none ∧
    ∃ response,
      (generalInquiryProcessor 9).execute "general_response" []
          { emptyContext.get_context "s1" with
              original_query := some "what is apr" } providerAvailable =
        Except.ok response ∧
      orchestratorFallbackDemo.process_query "t0" 9 "what is apr" "s1"
          none =
        (response,
         emptyContext.update_context "t0" "s1" "what is apr" response
           response.intent none) :=
  ⟨rfl,
   (unresolved_tool_general_inquiry_fallback orchestratorFallbackDemo "t0"
      9 "what is apr" "s1" none providerAvailable
      ⟨"nonexistent_tool", []⟩ rfl rfl rfl).2.2⟩

/-- Test fixture: an available provider whose health check also reports a
latency value. -/
def providerAvailableLatency : Provider :=
  { check_connection := .ok { available := true, latency := some "5" }
    generate := fun _ _ _ => .error (.exc "down")
    generate_with_tools := fun _ _ _ => .error (.exc "down") }

/-- Test fixture: one available provider reporting no latency. -/
def managerNoLatency : LLMManager :=
  ⟨[("gemini", providerAvailable)], some "gemini", []⟩

/-- Test fixture: one available provider reporting a latency. -/
def managerLatency : LLMManager :=
  ⟨[("gemini", providerAvailableLatency)], some "gemini", []⟩

/-- Counterexample to C9 as stated: two managers whose registered
providers carry identical names and identical availability flags get
different `get_available_providers` results, because the result also
carries each status's latency field, i.e. more than the availability
flag. -/
theorem get_available_providers_not_flag_only :
    managerNoLatency.providers.map Prod.fst =
      managerLatency.providers.map Prod.fst ∧
    managerNoLatency.providers.map (fun p => reportsAvailable p.2) =
      managerLatency.providers.map (fun p => reportsAvailable p.2) ∧
    managerNoLatency.get_available_providers ≠
      managerLatency.get_available_providers := by
  refine ⟨rfl, rfl, ?_⟩
  intro h
  rw [show managerNoLatency.get_available_providers =
        Except.ok [("gemini", ⟨true, none⟩)] from rfl,
      show managerLatency.get_available_providers =
        Except.ok [("gemini", ⟨true, some "5"⟩)] from rfl] at h
  simp at h

/-- When every registered provider's health check returns, the
availability listing is one entry per provider in registration order,
containing exactly the status's availability flag and latency field. -/
theorem availability_entries_ok (ps : List (String × Provider))
    (statuses : List CheckStatus)
    (h : ps.map (fun p => p.2.check_connection) = statuses.map Except.ok) :
    availability_entries ps =
      Except.ok ((ps.zip statuses).map fun e =>
        (e.1.1, { available := e.2.available, latency := e.2.latency })) := by
  induction ps generalizing statuses with
  | nil =>
    cases statuses with
    | nil => rfl
    | cons s ss => simp at h
  | cons hd tl ih =>
    cases statuses with
    | nil => simp at h
    | cons s ss =>
      rcases hd with ⟨name, p⟩
      simp only [List.map] at h
      injection h with h1 h2
      simp only [availability_entries, h1, ih ss h2, List.zip_cons_cons,
        List.map]
      rfl

/-- C9 (amended): `get_available_providers` returns, for every registered
provider in registration order, its current availability flag together
with the latency field of the same status report (and nothing else). -/
theorem get_available_providers_flag_and_latency (m : LLMManager)
    (statuses : List CheckStatus)
    (h : m.providers.map (fun p => p.2.check_connection) =
      statuses.map Except.ok) :
    m.get_available_providers =
      Except.ok ((m.providers.zip statuses).map fun e =>
        (e.1.1, { available := e.2.available, latency := e.2.latency })) :=
  availability_entries_ok m.providers statuses h

/-- Test fixture: an unavailable provider and an available one with a
latency report. -/
def managerTwo : LLMManager :=
  ⟨[("A", providerUnavailable), ("B", providerAvailableLatency)],
   some "A", []⟩

/-- Witness for C9 (amended) at a concrete two-provider manager. -/
theorem get_available_providers_flag_and_latency_witness :
    managerTwo.providers.map (fun p => p.2.check_connection) =
      ([⟨false, none, some "down"⟩, ⟨true, some "5", none⟩] :
        List CheckStatus).map Except.ok ∧
    managerTwo.get_available_providers =
      Except.ok [("A", ⟨false, none⟩), ("B", ⟨true, some "5"⟩)] :=
  ⟨rfl,
   (get_available_providers_flag_and_latency managerTwo
      [⟨false, none, some "down"⟩, ⟨true, some "5", none⟩] rfl).trans rfl⟩

/-- C6: the warehouse lookup is prefix-tolerant — a stripped identifier of
fewer than 10 characters matches any account number it prefixes, a longer
one must match exactly — and eligibility holds iff this lookup finds a
row; an identifier (passed as a non-falsy argument) absent from both the
warehouse and the disqualification lookup yields the `not_found`
response. -/
theorem warehouse_prefix_rule_and_not_found :
    (∀ (dm : DataManager) (identifier : String),
      ((dm.is_in_warehouse identifier).1 = true ↔
        ∃ acc ∈ dm.warehouse,
          (if (pyStrip identifier).data.length < 10
           then strStarts acc (pyStrip identifier) = true
           else acc = pyStrip identifier))) ∧
    (∀ (dm : DataManager) (hour : Nat)
        (arguments : List (String × String)) (context : Context)
        (a : String),
      (arguments.lookup "account_number").getD "" = a → a ≠ "" →
      dm.is_in_warehouse (pyStrip a) = (false, none) →
      dm.get_customer_data (pyStrip a) = none →
      check_eligibility dm hour arguments context =
        { message := "Account " ++ pyStrip a ++
            " not found in records. Please verify the account number.",
          intent := "eligibility_check", confidence := 0.9,
          status := "not_found" }) := by
  constructor
  · intro dm identifier
    have hmatch : ∀ r : Option String,
        ((match r with
          | some acc => ((true : Bool), some acc)
          | none => ((false : Bool), (none : Option String))).1 = true) ↔
          r.isSome := by
      intro r
      cases r <;> simp
    unfold DataManager.is_in_warehouse
    by_cases hlen : (pyStrip identifier).data.length < 10
    · simp only [if_pos hlen, hmatch, List.find?_isSome]
    · simp only [if_neg hlen, hmatch, List.find?_isSome,
        decide_eq_true_eq]
  · intro dm hour arguments context a ha hne hw hr
    simp only [check_eligibility, ha, hw, hr, if_neg hne]

/-- Test fixture: a one-row warehouse and a one-row disqualification
table, both unrelated to the queried identifier. -/
def dataManagerDemo : DataManager :=
  ⟨["1111111111"], [[("ACCOUNT_NUMBER", "2222222222")]]⟩

/-- Witness for C6's `not_found` clause at the identifier 999, absent
from both tables. -/
theorem warehouse_prefix_rule_and_not_found_witness :
    dataManagerDemo.is_in_warehouse (pyStrip "999") = (false, none) ∧
    check_eligibility dataManagerDemo 9 [("account_number", "999")]
        (ContextManager.get_context emptyContext "s1") =
      { message :=
          "Account 999 not found in records. Please verify the account number.",
        intent := "eligibility_check", confidence := 0.9,
        status := "not_found" } :=
  ⟨rfl,
   (warehouse_prefix_rule_and_not_found.2 dataManagerDemo 9
      [("account_number", "999")]
      (ContextManager.get_context emptyContext "s1") "999" rfl
      (by decide) rfl rfl).trans rfl⟩

/-- C7: for a record failing only the `Joint_Check` column (value
`EXCLUDE` after trimming and uppercasing) — recency flag, every other
catalog column and the free-text reasons field all passing — the analysis
returns exactly one `FailedCheck`, identified `Joint_Check`, and the
derived action list is exactly the single joint-account remediation
line. -/
theorem joint_check_single_failure (r : CustomerRecord)
    (hrec : pyUpper (pyStrip (r.get "recency_check" "")) ≠ "N")
    (hjoint : pyUpper (pyStrip (r.get "Joint_Check" "")) = "EXCLUDE")
    (hothers : ∀ cd ∈ CHECK_COLUMNS, cd.1 ≠ "Joint_Check" →
      pyUpper (pyStrip (r.get cd.1 "")) ≠ "EXCLUDE")
    (hreasons : pyStrip (r.get "reasons" "") = "" ∨
      pyStrip (r.get "reasons" "") = "nan") :
    analyze_failed_checks r =
      [{ check_type := "Joint_Check"
         description := "Joint Account Check"
         explanation :=
           "This is a joint account. Only individual accounts with sole signatories qualify."
         supporting_data := [] }] ∧
    generate_action_items (analyze_failed_checks r) =
      ["• **Convert to individual account** - Joint accounts ineligible"] := by
  have h02 := hothers ("DPD_Arrears_Check_DS", "DPD Arrears Check")
    (by decide) (by decide)
  have h03 := hothers ("Elma_check", "Mobile Banking Setup")
    (by decide) (by decide)
  have h04 := hothers ("KRAPIN_Check", "KRA PIN Check")
    (by decide) (by decide)
  have h05 := hothers ("Classification_Check", "Risk Classification")
    (by decide) (by decide)
  have h06 := hothers ("Mandates_Check", "Account Mandates")
    (by decide) (by decide)
  have h07 := hothers ("Linked_Base_Check", "Linked Base Account")
    (by decide) (by decide)
  have h08 := hothers ("customer_vintage_Check", "Banking Vintage")
    (by decide) (by decide)
  have h09 := hothers ("Active_Inactive_Check", "Account Activity")
    (by decide) (by decide)
  have h10 := hothers ("Scheme_Check_DS", "Scheme Check")
    (by decide) (by decide)
  have h11 := hothers ("Staff_Check_DS", "Staff Account Check")
    (by decide) (by decide)
  have h12 := hothers ("Risk_Class_Check_DS", "Risk Class Check")
    (by decide) (by decide)
  have h13 := hothers ("Average_Bal_check", "Average Balance Check")
    (by decide) (by decide)
  have hrecC : recency_checks r = [] := by
    unfold recency_checks
    rw [if_neg hrec]
  have hcat : catalog_checks r (recency_checks r) =
      [{ check_type := "Joint_Check"
         description := "Joint Account Check"
         explanation :=
           "This is a joint account. Only individual accounts with sole signatories qualify."
         supporting_data := [] }] := by
    rw [hrecC]
    simp only [catalog_checks, CHECK_COLUMNS, List.foldl, catalog_step,
      hjoint, h02, h03, h04, h05, h06, h07, h08, h09, h10, h11, h12, h13]
    simp [get_check_explanation, get_supporting_data]
  have hre : reasons_checks r
      [{ check_type := "Joint_Check"
         description := "Joint Account Check"
         explanation :=
           "This is a joint account. Only individual accounts with sole signatories qualify."
         supporting_data := [] }] =
      [{ check_type := "Joint_Check"
         description := "Joint Account Check"
         explanation :=
           "This is a joint account. Only individual accounts with sole signatories qualify."
         supporting_data := [] }] := by
    unfold reasons_checks
    rcases hreasons with h | h <;> simp [h]
  have hanalyze : analyze_failed_checks r =
      [{ check_type := "Joint_Check"
         description := "Joint Account Check"
         explanation :=
           "This is a joint account. Only individual accounts with sole signatories qualify."
         supporting_data := [] }] := by
    unfold analyze_failed_checks
    rw [hcat, hre]
  refine ⟨hanalyze, ?_⟩
  rw [hanalyze]
  decide

/-- Witness for C7: a record whose only present flag column is
`Joint_Check = "EXCLUDE"`. -/
theorem joint_check_single_failure_witness :
    pyUpper (pyStrip (CustomerRecord.get [("Joint_Check", "EXCLUDE")]
        "Joint_Check" "")) = "EXCLUDE" ∧
    generate_action_items
        (analyze_failed_checks [("Joint_Check", "EXCLUDE")]) =
      ["• **Convert to individual account** - Joint accounts ineligible"] :=
  ⟨rfl,
   (joint_check_single_failure [("Joint_Check", "EXCLUDE")] (by decide)
      rfl (by decide) (Or.inl rfl)).2⟩

/-- Test fixture: a record whose free-text reasons field is a single
comma, so both comma-split tokens strip to the empty string. -/
def reasonsCommaRecord : CustomerRecord := [("reasons", ",")]

/-- Counterexample to C8 as stated: for the record with `reasons = ","`
the empty string is a comma-split token of the reasons field, it does not
occur among the identifiers of the failed checks collected so far (there
are none), and yet the analysis appends nothing — the loop also discards
tokens that are empty after trimming, which the claim does not allow
for. -/
theorem reason_empty_token_not_appended :
    "" ∈ ((pySplit (pyStrip (reasonsCommaRecord.get "reasons" "")) ',').map
        pyStrip) ∧
    pyStrip (reasonsCommaRecord.get "reasons" "") ≠ "" ∧
    pyStrip (reasonsCommaRecord.get "reasons" "") ≠ "nan" ∧
    analyze_failed_checks reasonsCommaRecord = [] := by decide

/-- The reason loop preserves distinctness of failed-check identifiers:
every appended token is checked against all identifiers collected so
far. -/
theorem append_reason_checks_nodup (explanation_list : List String)
    (toks : List String) :
    ∀ (idx : Nat) (acc : List FailedCheck),
      (acc.map FailedCheck.check_type).Nodup →
      ((append_reason_checks explanation_list idx toks acc).map
          FailedCheck.check_type).Nodup := by
  induction toks with
  | nil =>
    intro idx acc h
    simpa [append_reason_checks] using h
  | cons t rest ih =>
    intro idx acc h
    by_cases hc : t ≠ "" ∧ t ∉ acc.map FailedCheck.check_type
    · simp only [append_reason_checks, if_pos hc]
      apply ih
      simp only [List.map_append, List.map_cons, List.map_nil]
      rw [List.nodup_append]
      refine ⟨h, List.nodup_singleton t, ?_⟩
      intro x hx hx'
      simp only [List.mem_singleton] at hx'
      exact hc.2 (hx' ▸ hx)
    · simp only [append_reason_checks, if_neg hc]
      exact ih _ _ h

/-- The identifiers produced by the catalog loop are the accumulator's
identifiers followed by the keys of the failing catalog columns, in
catalog order. -/
theorem catalog_foldl_ids (r : CustomerRecord)
    (cols : List (String × String)) :
    ∀ acc : List FailedCheck,
      ((cols.foldl (catalog_step r) acc).map FailedCheck.check_type) =
        acc.map FailedCheck.check_type ++
          (cols.filter fun cd =>
            pyUpper (pyStrip (r.get cd.1 "")) == "EXCLUDE").map
            Prod.fst := by
  induction cols with
  | nil => intro acc; simp
  | cons cd rest ih =>
    intro acc
    rw [List.foldl_cons, List.filter_cons]
    by_cases hc : pyUpper (pyStrip (r.get cd.1 "")) = "EXCLUDE"
    · simp only [catalog_step, if_pos hc, hc, beq_self_eq_true, if_true,
        ih, List.map_append, List.map_cons, List.map_nil, List.append_assoc]
      simp
    · have hc' : (pyUpper (pyStrip (r.get cd.1 "")) == "EXCLUDE") =
          false := beq_eq_false_iff_ne.mpr hc
      simp only [catalog_step, if_neg hc, hc', Bool.false_eq_true,
        if_false, ih]

/-- The identifiers coming out of the recency and catalog phases are
distinct: the catalog keys are pairwise distinct and none equals
`recency_check`. -/
theorem base_checks_ids_nodup (r : CustomerRecord) :
    ((catalog_checks r (recency_checks r)).map
        FailedCheck.check_type).Nodup := by
  rw [catalog_checks, catalog_foldl_ids]
  have hsub : ((CHECK_COLUMNS.filter fun cd =>
        pyUpper (pyStrip (r.get cd.1 "")) == "EXCLUDE").map
        Prod.fst).Sublist (CHECK_COLUMNS.map Prod.fst) :=
    (List.filter_sublist _).map _
  have hnodup2 : ((CHECK_COLUMNS.filter fun cd =>
        pyUpper (pyStrip (r.get cd.1 "")) == "EXCLUDE").map
        Prod.fst).Nodup :=
    hsub.nodup (by decide)
  unfold recency_checks
  split_ifs with h
  · simp only [List.map_cons, List.map_nil, List.nodup_cons,
      List.not_mem_nil, not_false_iff, List.nodup_nil, and_true,
      List.nil_append, List.cons_append, List.append_nil]
    refine ⟨?_, hnodup2⟩
    intro hmem
    have : "recency_check" ∈ CHECK_COLUMNS.map Prod.fst :=
      (hsub.subset) hmem
    revert this
    decide
  · simpa using hnodup2

/-- The full analysis never carries two failed checks with the same
identifier. -/
theorem analyze_ids_nodup (r : CustomerRecord) :
    ((analyze_failed_checks r).map FailedCheck.check_type).Nodup := by
  unfold analyze_failed_checks
  simp only [reasons_checks]
  split_ifs with h h2
  · exact append_reason_checks_nodup _ _ _ _ (base_checks_ids_nodup r)
  · exact append_reason_checks_nodup _ _ _ _ (base_checks_ids_nodup r)
  · exact base_checks_ids_nodup r

/-- C8 (amended): a comma-split reasons token that is empty after
trimming, or that already occurs among the identifiers of the failed
checks collected so far, is discarded — so no duplicate identifier is
ever produced — and every remaining token is appended as a `FailedCheck`
paired with the explanation at the same original position of the
comma-split explanation field, or with the raw token when that position
is absent. -/
theorem reason_tokens_dedup_and_pairing :
    (∀ r : CustomerRecord,
      ((analyze_failed_checks r).map FailedCheck.check_type).Nodup) ∧
    (∀ (explanation_list : List String) (idx : Nat) (rest : List String)
        (acc : List FailedCheck) (t : String),
      (t = "" ∨ t ∈ acc.map FailedCheck.check_type) →
      append_reason_checks explanation_list idx (t :: rest) acc =
        append_reason_checks explanation_list (idx + 1) rest acc) ∧
    (∀ (explanation_list : List String) (idx : Nat) (rest : List String)
        (acc : List FailedCheck) (t : String),
      t ≠ "" → t ∉ acc.map FailedCheck.check_type →
      append_reason_checks explanation_list idx (t :: rest) acc =
        append_reason_checks explanation_list (idx + 1) rest
          (acc ++ [{ check_type := t
                     description := pyTitle (pyReplaceChar t '_' ' ')
                     explanation := explanation_list.getD idx t
                     supporting_data := [] }])) ∧
    ((analyze_failed_checks
        [("Joint_Check", "EXCLUDE"), ("reasons", "Joint_Check")]).map
        FailedCheck.check_type = ["Joint_Check"]) := by
  refine ⟨analyze_ids_nodup, ?_, ?_, by decide⟩
  · intro explanation_list idx rest acc t h
    have hneg : ¬(t ≠ "" ∧ t ∉ acc.map FailedCheck.check_type) := by
      rcases h with h | h
      · exact fun hc => hc.1 h
      · exact fun hc => hc.2 h
    simp only [append_reason_checks, if_neg hneg]
  · intro explanation_list idx rest acc t h1 h2
    simp only [append_reason_checks, if_pos (And.intro h1 h2)]

/-- Witness for C8 (amended): a non-empty fresh token is appended with
its positional explanation. -/
theorem reason_tokens_dedup_and_pairing_witness :
    ("KRAPIN_Check" : String) ≠ "" ∧
    "KRAPIN_Check" ∉ ([] : List FailedCheck).map FailedCheck.check_type ∧
    append_reason_checks ["explA"] 0 ["KRAPIN_Check"] [] =
      [{ check_type := "KRAPIN_Check"
         description := pyTitle (pyReplaceChar "KRAPIN_Check" '_' ' ')
         explanation := (["explA"] : List String).getD 0 "KRAPIN_Check"
         supporting_data := [] }] :=
  ⟨by decide, by decide,
   (reason_tokens_dedup_and_pairing.2.2.1 ["explA"] 0 [] [] "KRAPIN_Check"
      (by decide) (by decide)).trans rfl⟩

/-- When no availability check raises, the fallback loop returns the
first provider of the list reporting available. -/
theorem check_fallbacks_ok (ps : List Provider)
    (h : ∀ p ∈ ps, ∃ s, p.check_connection = Except.ok s) :
    check_fallbacks ps = Except.ok (ps.find? reportsAvailable) := by
  induction ps with
  | nil => rfl
  | cons p rest ih =>
    obtain ⟨s, hs⟩ := h p (List.mem_cons_self _ _)
    have ih' := ih fun q hq => h q (List.mem_cons_of_mem _ hq)
    by_cases hav : s.available
    · simp [check_fallbacks, hs, List.find?_cons, reportsAvailable, hav]
    · simp [check_fallbacks, hs, List.find?_cons, reportsAvailable, hav,
        ih']

/-- The specification-side fallback scan is the first available provider
among the registered members of the fallback order. -/
theorem fallbackScanSpec_eq_find (m : LLMManager) (ns : List String) :
    fallbackScanSpec m ns =
      (ns.filterMap m.providers.lookup).find? reportsAvailable := by
  induction ns with
  | nil => rfl
  | cons n rest ih =>
    rw [List.filterMap_cons]
    cases hn : m.providers.lookup n with
    | none => simp [fallbackScanSpec, hn, ih]
    | some p =>
      by_cases hav : reportsAvailable p
      · simp [fallbackScanSpec, hn, List.find?_cons, hav]
      · simp [fallbackScanSpec, hn, List.find?_cons, hav, ih]

/-- The specification-side steps 2-4 expressed through the manager's
default-provider accessor. -/
theorem defaultOrFallbackSpec_eq (m : LLMManager) :
    defaultOrFallbackSpec m =
      (match m.get_default_provider with
       | some p =>
         if reportsAvailable p then some p
         else fallbackScanSpec m m.fallback_order
       | none => fallbackScanSpec m m.fallback_order) := by
  unfold defaultOrFallbackSpec LLMManager.get_default_provider
  cases m.default_provider_name with
  | none => rfl
  | some d =>
    cases m.providers.lookup d with
    | none => rfl
    | some p => rfl

/-- A provider returned by the default-provider accessor is registered. -/
theorem get_default_provider_registered (m : LLMManager) (p : Provider)
    (h : m.get_default_provider = some p) :
    ∃ n, m.providers.lookup n = some p := by
  unfold LLMManager.get_default_provider at h
  cases hdn : m.default_provider_name with
  | none =>
    rw [hdn] at h
    exact absurd h (by simp)
  | some d =>
    rw [hdn] at h
    exact ⟨d, h⟩

/-- When no availability check raises, the default-then-fallback tail of
the source selection equals the specification-side algorithm's steps
2-4. -/
theorem select_default_or_fallback_spec (o : Orchestrator)
    (hok : ∀ pr ∈ o.llm_manager.providers, ∃ s,
      pr.2.check_connection = Except.ok s) :
    o.select_default_or_fallback =
      Except.ok (defaultOrFallbackSpec o.llm_manager) := by
  have hfb : check_fallbacks o.llm_manager.get_fallback_providers =
      Except.ok (fallbackScanSpec o.llm_manager
        o.llm_manager.fallback_order) := by
    rw [fallbackScanSpec_eq_find]
    apply check_fallbacks_ok
    intro p hp
    simp only [LLMManager.get_fallback_providers] at hp
    obtain ⟨n, _, hn2⟩ := List.mem_filterMap.mp hp
    exact hok (n, p) (lookup_some_mem hn2)
  rw [defaultOrFallbackSpec_eq]
  unfold Orchestrator.select_default_or_fallback
  cases hgd : o.llm_manager.get_default_provider with
  | none => exact hfb
  | some p =>
    obtain ⟨n, hn⟩ := get_default_provider_registered _ _ hgd
    obtain ⟨s, hs⟩ := hok (n, p) (lookup_some_mem hn)
    have hs' : p.check_connection = Except.ok s := hs
    have hra : reportsAvailable p = s.available := by
      simp [reportsAvailable, hs']
    simp only [hs', hra]
    by_cases hav : s.available = true
    · rw [if_pos hav, if_pos hav]
    · rw [if_neg hav, if_neg hav]
      exact hfb

/-- The specification-side algorithm at a present preferred name. -/
theorem selectActiveSpec_some (m : LLMManager) (nm : String) :
    selectActiveSpec m (some nm) =
      (match m.providers.lookup nm with
       | some p =>
         if reportsAvailable p then some p else defaultOrFallbackSpec m
       | none => defaultOrFallbackSpec m) := rfl

/-- C2: under non-raising availability checks, the source's provider
selection computes, without raising, exactly the algorithm stated by the
specification: preferred name (when given, registered and available),
else available default, else first available provider of the fallback
order, else the empty result. -/
theorem select_llm_provider_matches_spec (o : Orchestrator)
    (pref : Option String)
    (hok : ∀ pr ∈ o.llm_manager.providers, ∃ s,
      pr.2.check_connection = Except.ok s)
    (hpref : pref ≠ some "") :
    o.select_llm_provider pref =
      Except.ok (selectActiveSpec o.llm_manager pref) := by
  have hdf := select_default_or_fallback_spec o hok
  cases pref with
  | none =>
    unfold Orchestrator.select_llm_provider selectActiveSpec
    simpa using hdf
  | some nm =>
    have hnm : nm ≠ "" := fun h => hpref (by rw [h])
    have hgp : o.llm_manager.get_provider (some nm) =
        o.llm_manager.providers.lookup nm := by
      unfold LLMManager.get_provider
      simp [hnm]
    unfold Orchestrator.select_llm_provider
    rw [if_pos (show ((some nm).getD "") ≠ "" from hnm), hgp,
      selectActiveSpec_some]
    cases hl : o.llm_manager.providers.lookup nm with
    | none => exact hdf
    | some p =>
      obtain ⟨s, hs⟩ := hok (nm, p) (lookup_some_mem hl)
      have hs' : p.check_connection = Except.ok s := hs
      have hra : reportsAvailable p = s.available := by
        simp [reportsAvailable, hs']
      simp only [hs', hra]
      by_cases hav : s.available = true
      · rw [if_pos hav, if_pos hav]
      · rw [if_neg hav, if_neg hav]
        exact hdf

/-- Witness for C2: with providers {A: unavailable, B: available},
default A and fallback order [B], selection returns B (through the
specification algorithm, which also yields B). -/
theorem select_llm_provider_matches_spec_witness :
    orchestratorAB.select_llm_provider none =
      Except.ok (some providerAvailable) ∧
    selectActiveSpec managerAB none = some providerAvailable := by
  have hok : ∀ pr ∈ orchestratorAB.llm_manager.providers, ∃ s,
      pr.2.check_connection = Except.ok s := by
    intro pr hpr
    simp only [orchestratorAB, managerAB, List.mem_cons,
      List.not_mem_nil, or_false] at hpr
    rcases hpr with rfl | rfl
    · exact ⟨_, rfl⟩
    · exact ⟨_, rfl⟩
  exact ⟨(select_llm_provider_matches_spec orchestratorAB none hok
      (by simp)).trans rfl, rfl⟩

end Safina
